import Mathlib

/-!
Verification of the NeMo package-distribution script (setup.py).

The script has three parts with observable behaviour:
  1. the long-description fallback chain (lines 53-68),
  2. the dependency loading and extras-group assembly (lines 74-97),
  3. the `style` command that shells out to isort and black (lines 104-155).

Each part is embedded below as a pure Lean function over an explicit model
of its environment (a file system as a partial map from paths to contents,
a subprocess environment as a function from command lines to exit codes).
-/

set_option autoImplicit false

namespace NemoSetup

/-- Python truthiness of a string-valued option: the empty string is falsy,
every other string is truthy.  The `fix` option of the style command is set
to the empty string by default. -/
def pyTruthy (s : String) : Bool := s != ""

/-- Python `str.strip()` with no argument: drop leading and trailing
whitespace characters. -/
def pyStrip (s : String) : String :=
  ⟨(((s.data.dropWhile Char.isWhitespace).reverse.dropWhile
      Char.isWhitespace).reverse)⟩

/-- Python `x.startswith(pre)`: the first `len(pre)` characters of `x`
equal `pre`. -/
def pyStartswith (x pre : String) : Bool :=
  x.data.take pre.data.length == pre.data

/-- The cases of `os.path.join(folder, filename)` exercised by this script:
relative components joined with a single separator. -/
def pathJoin (folder filename : String) : String :=
  if folder = "" then filename
  else if folder.data.getLast? = some '/' then folder ++ filename
  else folder ++ "/" ++ filename

/-- A file system for line-oriented reads, as seen by `open(...).readlines()`:
maps a path to its list of lines (line terminators retained), `none` when the
file is absent or unreadable. -/
def LineFS : Type := String → Option (List String)

/-- The filter of a line kept by `req_file`: the line strips to something
non-empty, and the raw (unstripped) line does not start with `#`. -/
def keepLine (x : String) : Bool :=
  (pyStrip x != "") && !(pyStartswith x "#")

/-- The list comprehension in `req_file`:
`[x.strip() for x in content if x.strip() and not x.startswith("#")]`. -/
def reqLines (content : List String) : List String :=
  (content.filter keepLine).map pyStrip

/-- `req_file(filename, folder="requirements")`: read the lines of the file
at `folder/filename` and keep the stripped non-blank non-comment lines.
A missing or unreadable file is a propagated error. -/
def req_file (fs : LineFS) (filename : String) (folder : String) :
    Except String (List String) :=
  match fs (pathJoin folder filename) with
  | none => Except.error ("cannot open " ++ pathJoin folder filename)
  | some content => Except.ok (reqLines content)

/-- Ordered dictionary over string keys, as Python dicts behave since 3.7:
iteration follows insertion order; assignment to an existing key updates the
value in place, assignment to a new key appends it at the end. -/
def dictSet (d : List (String × List String)) (k : String) (v : List String) :
    List (String × List String) :=
  if d.any (fun p => p.1 = k) then
    d.map (fun p => if p.1 = k then (k, v) else p)
  else d ++ [(k, v)]

/-- Dictionary lookup, defaulting to the empty list for an absent key (every
lookup in the script is on a present key). -/
def dictGet (d : List (String × List String)) (k : String) : List String :=
  ((d.find? (fun p => p.1 = k)).map Prod.snd).getD []

/-- The extras dictionary as first constructed (setup.py lines 82-89), given
the six lists loaded from the requirement files. -/
def extrasBase (test asr cv nlp tts tp : List String) :
    List (String × List String) :=
  [("test", test), ("asr", asr), ("cv", cv),
   ("nlp", nlp), ("tts", tts), ("text_processing", tp)]

/-- `extras_require['all'] = list(chain.from_iterable(extras_require.values()))`
(setup.py line 92): flatten the current values in iteration order. -/
def addAll (d : List (String × List String)) : List (String × List String) :=
  dictSet d "all" (List.flatten (d.map Prod.snd))

/-- `extras_require['tts'] = list(chain(extras_require['tts'], extras_require['asr']))`
(setup.py line 95): rebind the tts key to a fresh concatenated list. -/
def linkTtsAsr (d : List (String × List String)) : List (String × List String) :=
  dictSet d "tts" (dictGet d "tts" ++ dictGet d "asr")

/-- The extras dictionary after both derivation steps. -/
def extrasFinal (test asr cv nlp tts tp : List String) :
    List (String × List String) :=
  linkTtsAsr (addAll (extrasBase test asr cv nlp tts tp))

/-- A file system for whole-content reads used by the long-description
fallback: `os.path.exists p` holds exactly when `fs p` is `some`. -/
def TextFS : Type := String → Option String

/-- The long-description fallback chain (setup.py lines 53-68): the contents
of nemo/README.md as markdown if it exists, else the contents of README.rst
as reStructuredText if it exists, else a plain-text pointer to the homepage.
Returns the description together with its content type. -/
def longDescription (fs : TextFS) (homepage : String) : String × String :=
  match fs "nemo/README.md" with
  | some c => (c, "text/markdown")
  | none =>
    match fs "README.rst" with
    | some c => (c, "text/x-rst")
    | none => ("See " ++ homepage, "text/plain")

namespace StyleCommand

/-- `__LINE_WIDTH = 119`. -/
def lineWidth : Nat := 119

/-- `__ISORT_BASE`, the isort base command as a single string. -/
def isortBaseStr : String :=
  "isort " ++
  "--multi-line=3 --trailing-comma --force-grid-wrap=0 " ++
  "--use-parentheses --line-width=" ++ toString lineWidth ++ " -rc -ws"

/-- `__BLACK_BASE`, the black base command as a single string. -/
def blackBaseStr : String :=
  "black --skip-string-normalization --line-length=" ++ toString lineWidth

/-- Helper for `pySplit`: walk the characters, accumulating the current word
reversed, emitting a word at each whitespace run. -/
def pySplitChars : List Char → List Char → List (List Char)
  | [], acc => if acc.isEmpty then [] else [acc.reverse]
  | c :: rest, acc =>
    if Char.isWhitespace c then
      if acc.isEmpty then pySplitChars rest []
      else acc.reverse :: pySplitChars rest []
    else pySplitChars rest (c :: acc)

/-- Python `str.split()` with no argument: split on runs of whitespace,
dropping empty pieces. -/
def pySplit (s : String) : List String :=
  (pySplitChars s.data []).map (fun cs => ⟨cs⟩)

/-- Python `" ".join(command)`. -/
def pyJoinSpace : List String → String
  | [] => ""
  | [x] => x
  | x :: rest => x ++ " " ++ pyJoinSpace rest

/-- `self.__ISORT_BASE.split()`. -/
def isortBase : List String := pySplit isortBaseStr

/-- `self.__BLACK_BASE.split()`. -/
def blackBase : List String := pySplit blackBaseStr

/-- A log entry emitted through the logger. -/
inductive Event where
  | info : String → Event
  | error : String → Event
deriving DecidableEq

/-- The command list built by `__call_checker`: the base command, then the
scope, then, when `check` holds, the two check-only flags. -/
def callCheckerCmd (base : List String) (scope : String) (check : Bool) :
    List String :=
  base ++ [scope] ++ (if check then ["--check", "--diff"] else [])

/-- The user-settable options of the style command. -/
structure Options where
  scope : String
  fix : String
deriving DecidableEq

/-- `initialize_options`: scope defaults to the current directory, fix to the
empty (falsy) string. -/
def init_options : Options := ⟨".", ""⟩

/-- The observable outcome of `StyleCommand.run`: the subprocess command
lines invoked in order, the log, and the `SystemExit` code when one is
raised. -/
structure RunOutcome where
  invoked : List (List String)
  log : List Event
  fatalExit : Option Int
deriving DecidableEq

/-- The message logged by `_pass`. -/
def passMsg : String := "\x1b[32mPASS\x1b[0m"

/-- The message logged by `_fail`. -/
def failMsg : String := "\x1b[31mFAIL\x1b[0m"

/-- `StyleCommand.run`, parameterised by the subprocess environment `env`
mapping a command line to the exit code `subprocess.call` returns for it.
Both tools run in order; if both exit 0 the command logs PASS, otherwise it
logs FAIL and raises `SystemExit` with the isort code if non-zero, else the
black code. -/
def run (env : List String → Int) (o : Options) : RunOutcome :=
  let check := !pyTruthy o.fix
  let isortCmd := callCheckerCmd isortBase o.scope check
  let blackCmd := callCheckerCmd blackBase o.scope check
  let isortReturn := env isortCmd
  let blackReturn := env blackCmd
  let runLog := [Event.info ("Running command: " ++ pyJoinSpace isortCmd),
                 Event.info ("Running command: " ++ pyJoinSpace blackCmd)]
  if isortReturn = 0 ∧ blackReturn = 0 then
    ⟨[isortCmd, blackCmd], runLog ++ [Event.info passMsg], none⟩
  else
    ⟨[isortCmd, blackCmd], runLog ++ [Event.error failMsg],
     some (if isortReturn ≠ 0 then isortReturn else blackReturn)⟩

/-- The isort command line `run` issues for the given options. -/
def isortCmdOf (o : Options) : List String :=
  callCheckerCmd isortBase o.scope (!pyTruthy o.fix)

/-- The black command line `run` issues for the given options. -/
def blackCmdOf (o : Options) : List String :=
  callCheckerCmd blackBase o.scope (!pyTruthy o.fix)

end StyleCommand

/-! Theorems -/

/-- C2 counterexample: the claim defines a comment as a line whose trimmed
form begins with `#`, but `req_file` tests `startswith` on the raw line.  A
comment indented by one space therefore survives the filter: on a file whose
single line is that indented comment, the loader returns one string even
though the file has zero lines that are non-blank and non-comment in the
trimmed sense, and that string itself begins with `#`. -/
theorem req_file_trimmed_comment_counterexample :
    req_file
        (fun p => if p = "requirements/requirements.txt"
          then some [" # pinned\n"] else none)
        "requirements.txt" "requirements" = Except.ok ["# pinned"] ∧
    pyStartswith (pyStrip " # pinned\n") "#" = true ∧
    List.countP
        (fun x => (pyStrip x != "") && !(pyStartswith (pyStrip x) "#"))
        [" # pinned\n"] = 0 :=
  ⟨by rfl, by decide, by decide⟩

/-- C2 (amended): `req_file` returns exactly the lines that strip to
something non-empty and whose raw (untrimmed) form does not begin with `#`,
each stripped, in file order (a sublist of the file), one output string per
kept line. -/
theorem req_file_returns_trimmed_kept_lines (fs : LineFS)
    (filename folder : String) (content : List String)
    (h : fs (pathJoin folder filename) = some content) :
    ∃ kept : List String,
      kept.Sublist content ∧
      (∀ x ∈ kept, pyStrip x ≠ "" ∧ pyStartswith x "#" = false) ∧
      kept.length = content.countP keepLine ∧
      req_file fs filename folder = Except.ok (kept.map pyStrip) := by
  refine ⟨content.filter keepLine, List.filter_sublist _, ?_, ?_, ?_⟩
  · intro x hx
    have hk : keepLine x = true := (List.mem_filter.mp hx).2
    simp only [keepLine, Bool.and_eq_true, bne_iff_ne, ne_eq,
      Bool.not_eq_true'] at hk
    exact hk
  · exact (List.countP_eq_length_filter _ _).symm
  · simp [req_file, h, reqLines]

/-- C2 witness: evaluating the amended statement on a concrete file holding
a requirement line, a comment, a blank line, and a padded requirement. -/
theorem req_file_returns_trimmed_kept_lines_witness :
    ∃ kept : List String,
      kept.Sublist ["numpy\n", "# c\n", "\n", "  torch \n"] ∧
      (∀ x ∈ kept, pyStrip x ≠ "" ∧ pyStartswith x "#" = false) ∧
      kept.length = List.countP keepLine ["numpy\n", "# c\n", "\n", "  torch \n"] ∧
      req_file
          (fun p => if p = "requirements/requirements.txt"
            then some ["numpy\n", "# c\n", "\n", "  torch \n"] else none)
          "requirements.txt" "requirements"
        = Except.ok (kept.map pyStrip) :=
  req_file_returns_trimmed_kept_lines
    (fun p => if p = "requirements/requirements.txt"
      then some ["numpy\n", "# c\n", "\n", "  torch \n"] else none)
    "requirements.txt" "requirements"
    ["numpy\n", "# c\n", "\n", "  torch \n"] (by rfl)

/-- C8: on a missing or unreadable file the loader propagates a file-access
error to its caller: the result is the error naming the joined path, and in
particular no (partial or total) list is returned. -/
theorem req_file_missing_file_propagates (fs : LineFS)
    (filename folder : String)
    (h : fs (pathJoin folder filename) = none) :
    req_file fs filename folder
        = Except.error ("cannot open " ++ pathJoin folder filename) ∧
    ∀ l : List String, req_file fs filename folder ≠ Except.ok l := by
  refine ⟨?_, ?_⟩ <;> simp [req_file, h]

/-- C8 witness: the loader on an empty file system. -/
theorem req_file_missing_file_propagates_witness :
    req_file (fun _ => none) "requirements.txt" "requirements"
      = Except.error "cannot open requirements/requirements.txt" :=
  (req_file_missing_file_propagates (fun _ => none)
    "requirements.txt" "requirements" rfl).1

/-- C6: the long-description selection is a deterministic three-way
fallback: the contents of nemo/README.md as markdown when that file exists;
otherwise the contents of README.rst as reStructuredText when that file
exists; otherwise the plain-text string `See ` followed by the homepage. -/
theorem long_description_fallback (fs1 fs2 fs3 : TextFS) (hp c1 c2 : String)
    (h1 : fs1 "nemo/README.md" = some c1)
    (h2a : fs2 "nemo/README.md" = none) (h2b : fs2 "README.rst" = some c2)
    (h3a : fs3 "nemo/README.md" = none) (h3b : fs3 "README.rst" = none) :
    longDescription fs1 hp = (c1, "text/markdown") ∧
    longDescription fs2 hp = (c2, "text/x-rst") ∧
    longDescription fs3 hp = ("See " ++ hp, "text/plain") := by
  refine ⟨?_, ?_, ?_⟩ <;> simp [longDescription, h1, h2a, h2b, h3a, h3b]

/-- C6 witness: the three fallback cases on concrete file systems. -/
theorem long_description_fallback_witness :
    longDescription (fun p => if p = "nemo/README.md" then some "M" else none)
        "http://x" = ("M", "text/markdown") ∧
    longDescription (fun p => if p = "README.rst" then some "R" else none)
        "http://x" = ("R", "text/x-rst") ∧
    longDescription (fun _ => none) "http://x"
        = ("See http://x", "text/plain") :=
  long_description_fallback
    (fun p => if p = "nemo/README.md" then some "M" else none)
    (fun p => if p = "README.rst" then some "R" else none)
    (fun _ => none) "http://x" "M" "R"
    (by rfl) (by rfl) (by rfl) (by rfl) (by rfl)

/-- C3: at the moment the `all` extras group is assembled, it is the
flattened concatenation of the six other groups in iteration order
(test, asr, cv, nlp, tts, text_processing), and its length is the sum of
their lengths with duplicates counted. -/
theorem all_group_is_flattened_concat (test asr cv nlp tts tp : List String) :
    dictGet (addAll (extrasBase test asr cv nlp tts tp)) "all"
      = test ++ asr ++ cv ++ nlp ++ tts ++ tp ∧
    (dictGet (addAll (extrasBase test asr cv nlp tts tp)) "all").length
      = test.length + asr.length + cv.length + nlp.length + tts.length
        + tp.length := by
  constructor
  · simp [dictGet, addAll, extrasBase, dictSet, List.find?]
  · simp [dictGet, addAll, extrasBase, dictSet, List.find?]
    omega

/-- C4: after the cross-link step, the final tts extras group is its own
original entries followed by every entry of the asr group, order preserved. -/
theorem tts_group_after_crosslink (test asr cv nlp tts tp : List String) :
    dictGet (extrasFinal test asr cv nlp tts tp) "tts" = tts ++ asr := by
  simp [dictGet, extrasFinal, linkTtsAsr, addAll, extrasBase, dictSet,
    List.find?]

/-- C10: the cross-link step that rebinds the tts group leaves every other
extras group unchanged; in particular the all group keeps exactly the single
flattened copy it was assembled with and gains no second copy of the asr
entries. -/
theorem crosslink_frame (test asr cv nlp tts tp : List String) :
    (dictGet (extrasFinal test asr cv nlp tts tp) "all"
        = dictGet (addAll (extrasBase test asr cv nlp tts tp)) "all" ∧
      dictGet (extrasFinal test asr cv nlp tts tp) "asr"
        = dictGet (addAll (extrasBase test asr cv nlp tts tp)) "asr" ∧
      dictGet (extrasFinal test asr cv nlp tts tp) "test"
        = dictGet (addAll (extrasBase test asr cv nlp tts tp)) "test" ∧
      dictGet (extrasFinal test asr cv nlp tts tp) "cv"
        = dictGet (addAll (extrasBase test asr cv nlp tts tp)) "cv" ∧
      dictGet (extrasFinal test asr cv nlp tts tp) "nlp"
        = dictGet (addAll (extrasBase test asr cv nlp tts tp)) "nlp" ∧
      dictGet (extrasFinal test asr cv nlp tts tp) "text_processing"
        = dictGet (addAll (extrasBase test asr cv nlp tts tp))
            "text_processing") ∧
    dictGet (extrasFinal test asr cv nlp tts tp) "all"
      = test ++ asr ++ cv ++ nlp ++ tts ++ tp := by
  refine ⟨⟨?_, ?_, ?_, ?_, ?_, ?_⟩, ?_⟩ <;>
    simp [dictGet, extrasFinal, linkTtsAsr, addAll, extrasBase, dictSet,
      List.find?]

open StyleCommand in
/-- C1: for every pair of exit codes of the two tools, `run` raises no
fatal termination and logs PASS last when both exit 0; otherwise it logs
FAIL last and raises `SystemExit` whose code is the isort exit code if that
is non-zero, else the black exit code. -/
theorem run_exit_code_policy (env : List String → Int) (o : Options) :
    (run env o).fatalExit
      = (if env (isortCmdOf o) = 0 ∧ env (blackCmdOf o) = 0 then none
         else some (if env (isortCmdOf o) ≠ 0 then env (isortCmdOf o)
                    else env (blackCmdOf o))) ∧
    (run env o).log.getLast?
      = some (if env (isortCmdOf o) = 0 ∧ env (blackCmdOf o) = 0
              then Event.info passMsg else Event.error failMsg) := by
  constructor <;>
    · simp only [run, isortCmdOf, blackCmdOf]
      split <;> simp

open StyleCommand in
/-- C5: the fix option exactly toggles the check-only flags: when fix is
falsy both command lines are the base command, then the scope, then
`--check --diff`; when fix is truthy both command lines are just the base
command and the scope, and the check flags occur nowhere in the base
commands. -/
theorem fix_flag_toggles_check_flags (env : List String → Int)
    (o : Options) :
    (pyTruthy o.fix = false →
      (run env o).invoked
        = [isortBase ++ [o.scope, "--check", "--diff"],
           blackBase ++ [o.scope, "--check", "--diff"]]) ∧
    (pyTruthy o.fix = true →
      (run env o).invoked = [isortBase ++ [o.scope], blackBase ++ [o.scope]] ∧
      "--check" ∉ isortBase ∧ "--diff" ∉ isortBase ∧
      "--check" ∉ blackBase ∧ "--diff" ∉ blackBase) := by
  constructor
  · intro hfix
    have : (run env o).invoked
        = [callCheckerCmd isortBase o.scope true,
           callCheckerCmd blackBase o.scope true] := by
      simp only [run, hfix]
      split <;> rfl
    simpa [callCheckerCmd, List.append_assoc] using this
  · intro hfix
    have : (run env o).invoked
        = [callCheckerCmd isortBase o.scope false,
           callCheckerCmd blackBase o.scope false] := by
      simp only [run, hfix]
      split <;> rfl
    refine ⟨by simpa [callCheckerCmd] using this, ?_, ?_, ?_, ?_⟩ <;> decide

open StyleCommand in
/-- C5 witness: with the default (falsy) fix the check flags are appended
after the scope; with a truthy fix they are absent. -/
theorem fix_flag_toggles_check_flags_witness :
    (run (fun _ => 0) init_options).invoked
      = [isortBase ++ [".", "--check", "--diff"],
         blackBase ++ [".", "--check", "--diff"]] ∧
    (run (fun _ => 0) ⟨".", "1"⟩).invoked
      = [isortBase ++ ["."], blackBase ++ ["."]] :=
  ⟨(fix_flag_toggles_check_flags (fun _ => 0) init_options).1 (by decide),
   ((fix_flag_toggles_check_flags (fun _ => 0) ⟨".", "1"⟩).2 (by decide)).1⟩

open StyleCommand in
/-- C7: the black invocation happens even when isort returned a non-zero
code, and the two subprocess invocations happen in order, isort first,
black second. -/
theorem both_tools_invoked_in_order (env : List String → Int) (o : Options)
    (_h : env (isortCmdOf o) ≠ 0) :
    (run env o).invoked = [isortCmdOf o, blackCmdOf o] := by
  simp only [run, isortCmdOf, blackCmdOf]
  split <;> rfl

open StyleCommand in
/-- C7 witness: with an environment in which isort exits 5, both command
lines are still invoked, isort first. -/
theorem both_tools_invoked_in_order_witness :
    (run (fun _ => (5 : Int)) init_options).invoked
      = [isortCmdOf init_options, blackCmdOf init_options] :=
  both_tools_invoked_in_order (fun _ => (5 : Int)) init_options (by decide)

open StyleCommand in
/-- C9: after `initialize_options`, scope is the current directory and fix
is the falsy empty string, so a run with the default options invokes both
tools on the current directory in check-only mode. -/
theorem default_options_are_check_mode (env : List String → Int) :
    init_options.scope = "." ∧
    pyTruthy init_options.fix = false ∧
    (run env init_options).invoked
      = [isortBase ++ [".", "--check", "--diff"],
         blackBase ++ [".", "--check", "--diff"]] := by
  refine ⟨rfl, by decide, ?_⟩
  have : (run env init_options).invoked
      = [callCheckerCmd isortBase "." true, callCheckerCmd blackBase "." true] := by
    simp only [run, init_options]
    split <;> rfl
  simpa [callCheckerCmd, List.append_assoc] using this

end NemoSetup
